import Mathlib

/-!
Shallow embedding of the seaweedfs FUSE metadata-mutation slice
(filesys package: Dir.Link, Dir.Symlink, File.Readlink) together with the
collaborators the spec describes at their interface boundary (identifier
translator, remote entry client, local metadata cache, lazy entry load).

Machine integers: protobuf uid/gid are uint32 and HardLinkCounter is
int32; they are modelled as Nat resp. Int, with 32-bit behaviour made
explicit where the Go code exercises it: the file-mode computation masks
to 32 bits, and the hardlink-counter increment wraps through wrapInt32,
the two-complement wrap of a Go int32.
Nondeterministic effects (random bytes, clock readings, remote call
outcomes) are inputs to the model; remote and cache interactions are
recorded in an event trace so that ordering and frame claims are statable.
The Signatures field of each remote request is carried on the trace events.
-/

/-- FuseAttributes mirrors the filer_pb.FuseAttributes fields used by this
slice: timestamps, file mode, owner and group ids, symlink target. -/
structure FuseAttributes where
  Mtime : Int
  Crtime : Int
  FileMode : Nat
  Uid : Nat
  Gid : Nat
  SymlinkTarget : String
  deriving Repr, DecidableEq

/-- Entry mirrors filer_pb.Entry as used by this slice. Chunks are opaque
content-block references, Extended is a map from string to bytes,
HardLinkId is a byte sequence (empty for ordinary entries), and
HardLinkCounter holds a Go int32 value: every arithmetic step the code
performs on it goes through the two-complement wrap wrapInt32. -/
structure Entry where
  Name : String
  IsDirectory : Bool
  Attributes : FuseAttributes
  Chunks : List Nat
  Extended : List (String × List Nat)
  HardLinkId : List Nat
  HardLinkCounter : Int
  deriving Repr, DecidableEq

/-- The old file node of a Link call: its parent directory full path and
its name, as used by oldFile.dir.FullPath() and oldFile.Name. -/
structure FileNode where
  dirPath : String
  Name : String
  deriving Repr, DecidableEq

/-- POSIX-style errors surfaced by this slice; the other constructor
stands for an arbitrary error propagated from the lazy-load collaborator. -/
inductive FuseError where
  | eperm
  | eio
  | einval
  | other (code : Nat)
  deriving Repr, DecidableEq

/-- Modelled from the spec: the Identifier Translator (wfs.mapPbIdFromLocalToFiler
and wfs.mapPbIdFromFilerToLocal are outside the shown source). A pure pair
of maps between the local and the filer owner/group identifier spaces. -/
structure Mapper where
  localToFiler : Nat → Nat
  filerToLocal : Nat → Nat

/-- Modelled from the spec: outward identifier translation, rewriting the
owner and group identifier fields from local space to filer space. -/
def translateOut (m : Mapper) (e : Entry) : Entry :=
  { e with Attributes := { e.Attributes with
      Uid := m.localToFiler e.Attributes.Uid
      Gid := m.localToFiler e.Attributes.Gid } }

/-- Modelled from the spec: inward identifier translation, rewriting the
owner and group identifier fields from filer space back to local space. -/
def translateIn (m : Mapper) (e : Entry) : Entry :=
  { e with Attributes := { e.Attributes with
      Uid := m.filerToLocal e.Attributes.Uid
      Gid := m.filerToLocal e.Attributes.Gid } }

/-- The os.ModeSymlink bit of a Go os.FileMode (bit 27). -/
def modeSymlink : Nat := 1 <<< 27

/-- Go expression x AndNot u on 32-bit values: keep the bits of x that are
clear in u, where u is a 32-bit mask. -/
def goAndNot32 (x u : Nat) : Nat := x &&& ((2 ^ 32 - 1) ^^^ u)

/-- HARD_LINK_MARKER, the fixed trailing byte of a hardlink identifier. -/
def hardLinkMarker : Nat := 1

/-- Two-complement wrap of a Go int32: the unique value congruent to x
modulo 2 to the 32 that lies in the int32 range. Go increments of an
int32 wrap through this function. -/
def wrapInt32 (x : Int) : Int := (x + 2147483648) % 4294967296 - 2147483648

/-- Modelled from the spec: the local metadata cache is a mirror store
keyed by full path. -/
abbrev Cache := List (String × Entry)

/-- Modelled from the spec: write an entry into the cache under a path,
replacing any previous entry at that path. Both metaCache.InsertEntry and
metaCache.UpdateEntry write the given entry at the given key. -/
def cacheSet : Cache → String → Entry → Cache
  | [], p, e => [(p, e)]
  | (q, f) :: rest, p, e =>
      if q = p then (p, e) :: rest else (q, f) :: cacheSet rest p e

/-- Look up the entry stored in the cache at a path. -/
def cacheLookup : Cache → String → Option Entry
  | [], _ => none
  | (q, f) :: rest, p => if q = p then some f else cacheLookup rest p

/-- Modelled from the spec: util.NewFullPath, the full-path key
directory/name used by filer.FromPbEntry for cache writes. -/
def fullPath (dir name : String) : String :=
  if dir = "/" then dir ++ name else dir ++ "/" ++ name

/-- One observable interaction: a remote filer call (with its directory,
entry, request signatures and outcome) or a local metadata cache write. -/
inductive Event where
  | remoteUpdate (dir : String) (e : Entry) (sigs : List Int) (ok : Bool)
  | remoteCreate (dir : String) (e : Entry) (sigs : List Int) (ok : Bool)
  | cacheUpdate (path : String) (e : Entry)
  | cacheInsert (path : String) (e : Entry)
  deriving Repr, DecidableEq

/-- Does an earlier event justify a cache write of entry e at path p: a
successful remote update (for cache updates) or remote create (for cache
inserts) of the same entry whose directory and name give that path. -/
def remoteSuccessFor (isUpdate : Bool) (p : String) (e : Entry) : Event → Bool
  | .remoteUpdate d f _ ok =>
      isUpdate && ok && (if f = e ∧ p = fullPath d f.Name then true else false)
  | .remoteCreate d f _ ok =>
      !isUpdate && ok && (if f = e ∧ p = fullPath d f.Name then true else false)
  | _ => false

/-- Scan a trace, keeping the already-seen prefix, and check that every
cache write is preceded by the corresponding successful remote call. -/
def cacheAfterRemoteAux (pre : List Event) : List Event → Bool
  | [] => true
  | ev :: rest =>
      (match ev with
       | .cacheUpdate p e => pre.any (remoteSuccessFor true p e)
       | .cacheInsert p e => pre.any (remoteSuccessFor false p e)
       | _ => true)
      && cacheAfterRemoteAux (pre ++ [ev]) rest

/-- A trace is cache-after-remote when every local cache write in it is
preceded by the corresponding successful remote call. -/
def cacheAfterRemote (tr : List Event) : Bool := cacheAfterRemoteAux [] tr

/-- The hardlink stamping of Dir.Link applied to the loaded old entry: if
HardLinkId is empty, assign a fresh id of the 16 random bytes plus the
marker byte and set the counter to 1; then increment the counter, an
int32 increment that wraps at the int32 boundary. -/
def stampHardLink (randomBytes : List Nat) (e : Entry) : Entry :=
  let e₁ :=
    if e.HardLinkId.length = 0 then
      { e with HardLinkId := randomBytes ++ [hardLinkMarker], HardLinkCounter := 1 }
    else e
  { e₁ with HardLinkCounter := wrapInt32 (e₁.HardLinkCounter + 1) }

/-- The entry of the CreateEntryRequest built by Dir.Link for the new
name: name and directory change, everything else is taken from the
stamped old entry (the Attributes object is shared by pointer in Go). -/
def linkRequestEntry (newName : String) (oldEntry : Entry) : Entry :=
  { Name := newName
    IsDirectory := false
    Attributes := oldEntry.Attributes
    Chunks := oldEntry.Chunks
    Extended := oldEntry.Extended
    HardLinkId := oldEntry.HardLinkId
    HardLinkCounter := oldEntry.HardLinkCounter }

/-- Inputs of one Dir.Link execution: configuration, the receiver
directory full path, the request new name, the old node (none when the
old fs.Node is not a File, so the Go type assertion fails), the result of
the lazy load of the old entry, the 16 random bytes drawn for a fresh
hardlink id, the injected outcomes of the two remote calls, and the
initial local cache. -/
structure LinkInput where
  readOnly : Bool
  signature : Int
  mapper : Mapper
  dirPath : String
  newName : String
  old : Option FileNode
  loadResult : Except FuseError (Option Entry)
  randomBytes : List Nat
  updateOk : Bool
  createOk : Bool
  cache0 : Cache

/-- The Go-level return of Link: either a crash by nil-pointer
dereference, or a node/error pair. -/
inductive LinkRet where
  | panicked
  | returned (node : Option Entry) (err : Option FuseError)
  deriving Repr, DecidableEq

/-- Result of one Dir.Link execution: return value, event trace, final
cache, the entries as sent on the two remote calls, and the state of the
create-request entry after the deferred inward translation ran. -/
structure LinkResult where
  ret : LinkRet
  events : List Event
  cache : Cache
  sentUpdate : Option Entry
  sentCreate : Option Entry
  reqEntryFinal : Option Entry

/-- Dir.Link. Follows the source: read-only check; type assertion of the
old node (a failure is only logged, and the nil file pointer is then
dereferenced by the logging call arguments, a crash); lazy load of the
old entry (errors propagate, a nil loaded entry is EIO); hardlink
stamping; building the update request for the old entry and the create
request for the new name; then, under one filer-client scope, outward
identifier translation of the create-request entry (whose Attributes
object is shared with the old entry, so both requests cross translated)
with the inward translation deferred to scope exit, remote update then
cache update, remote create then cache insert, each remote failure
returning EIO; finally the new node is built around the request entry and
its lazy load finds it resident. -/
def linkRun (inp : LinkInput) : LinkResult :=
  if inp.readOnly then
    ⟨.returned none (some .eperm), [], inp.cache0, none, none, none⟩
  else
    match inp.old with
    | none => ⟨.panicked, [], inp.cache0, none, none, none⟩
    | some oldFile =>
      match inp.loadResult with
      | .error err => ⟨.returned none (some err), [], inp.cache0, none, none, none⟩
      | .ok none => ⟨.returned none (some .eio), [], inp.cache0, none, none, none⟩
      | .ok (some oldEntry₀) =>
        let oldEntry := stampHardLink inp.randomBytes oldEntry₀
        let newEntry := linkRequestEntry inp.newName oldEntry
        let sigs : List Int := [inp.signature]
        let oldSent := translateOut inp.mapper oldEntry
        let newSent := translateOut inp.mapper newEntry
        let reqFinal := translateIn inp.mapper newSent
        if inp.updateOk then
          let oldPath := fullPath oldFile.dirPath oldSent.Name
          let c₁ := cacheSet inp.cache0 oldPath oldSent
          if inp.createOk then
            let newPath := fullPath inp.dirPath newSent.Name
            let c₂ := cacheSet c₁ newPath newSent
            ⟨.returned (some reqFinal) none,
             [.remoteUpdate oldFile.dirPath oldSent sigs true,
              .cacheUpdate oldPath oldSent,
              .remoteCreate inp.dirPath newSent sigs true,
              .cacheInsert newPath newSent],
             c₂, some oldSent, some newSent, some reqFinal⟩
          else
            ⟨.returned none (some .eio),
             [.remoteUpdate oldFile.dirPath oldSent sigs true,
              .cacheUpdate oldPath oldSent,
              .remoteCreate inp.dirPath newSent sigs false],
             c₁, some oldSent, some newSent, some reqFinal⟩
        else
          ⟨.returned none (some .eio),
           [.remoteUpdate oldFile.dirPath oldSent sigs false],
           inp.cache0, some oldSent, none, some reqFinal⟩

/-- Inputs of one Dir.Symlink execution: configuration (including the
process umask), the receiver directory full path, the request fields, the
two clock readings taken for Mtime and Crtime, the injected outcome of
the remote create, and the initial local cache. -/
structure SymlinkInput where
  readOnly : Bool
  umask : Nat
  signature : Int
  mapper : Mapper
  dirPath : String
  newName : String
  target : String
  uid : Nat
  gid : Nat
  mtimeNow : Int
  crtimeNow : Int
  createOk : Bool
  cache0 : Cache

/-- The entry of the CreateEntryRequest built by Dir.Symlink: a
non-directory entry whose mode is the world-accessible bits joined with
the symlink bit, minus the umask bits, stamped with the clock readings,
the requested owner and group ids and the requested target. The remaining
Entry fields keep their Go zero values. -/
def symlinkRequestEntry (inp : SymlinkInput) : Entry :=
  { Name := inp.newName
    IsDirectory := false
    Attributes :=
      { Mtime := inp.mtimeNow
        Crtime := inp.crtimeNow
        FileMode := goAndNot32 (0o777 ||| modeSymlink) inp.umask
        Uid := inp.uid
        Gid := inp.gid
        SymlinkTarget := inp.target }
    Chunks := []
    Extended := []
    HardLinkId := []
    HardLinkCounter := 0 }

/-- Result of one Dir.Symlink execution: the node/error pair, the event
trace, the final cache, and the state of the request entry after the
deferred inward translation ran (none when no request was built). -/
structure SymlinkResult where
  node : Option Entry
  err : Option FuseError
  events : List Event
  cache : Cache
  reqEntryFinal : Option Entry

/-- Dir.Symlink. Follows the source: read-only check; building the create
request; then, under one filer-client scope, outward identifier
translation with the inward translation deferred to scope exit, remote
create then cache insert, a remote failure returning EIO; the node built
around the request entry is returned together with the error in all
cases. -/
def symlinkRun (inp : SymlinkInput) : SymlinkResult :=
  if inp.readOnly then
    ⟨none, some .eperm, [], inp.cache0, none⟩
  else
    let reqE := symlinkRequestEntry inp
    let sigs : List Int := [inp.signature]
    let sent := translateOut inp.mapper reqE
    let reqFinal := translateIn inp.mapper sent
    if inp.createOk then
      let newPath := fullPath inp.dirPath sent.Name
      ⟨some reqFinal, none,
       [.remoteCreate inp.dirPath sent sigs true, .cacheInsert newPath sent],
       cacheSet inp.cache0 newPath sent, some reqFinal⟩
    else
      ⟨some reqFinal, some .eio,
       [.remoteCreate inp.dirPath sent sigs false],
       inp.cache0, some reqFinal⟩

/-- Result of one File.Readlink execution on a loaded entry: the returned
string/error pair, the event trace and the final cache. -/
structure ReadlinkResult where
  target : String
  err : Option FuseError
  events : List Event
  cache : Cache

/-- File.Readlink on a loaded entry (the lazy load found the entry
resident, as the spec assumes). Follows the source: if the symlink bit of
the file mode is clear, return the empty string and EINVAL; otherwise
return the symlink target. The body performs no remote call and no cache
write. -/
def readlinkRun (cache0 : Cache) (entry : Entry) : ReadlinkResult :=
  if entry.Attributes.FileMode &&& modeSymlink = 0 then
    ⟨"", some .einval, [], cache0⟩
  else
    ⟨entry.Attributes.SymlinkTarget, none, [], cache0⟩

/-- Iterated hardlink stamping: the state of an identity-group entry
after n successive Link stampings, each Link loading the entry left by
the previous one. -/
def linkStamped (randomBytes : List Nat) : Nat → Entry → Entry
  | 0, e => e
  | n + 1, e => stampHardLink randomBytes (linkStamped randomBytes n e)

/-- A concrete identifier mapper whose inward map inverts its outward map. -/
def wMapper : Mapper := ⟨fun n => n + 1000, fun n => n - 1000⟩

/-- Concrete attributes of an ordinary file entry. -/
def wAttr : FuseAttributes := ⟨1700000000, 1700000001, 0o644, 1000, 2000, ""⟩

/-- A concrete ordinary file entry with an empty hardlink id. -/
def wEntry : Entry := ⟨"a.txt", false, wAttr, [7, 8], [("xattr", [1, 2])], [], 0⟩

/-- A concrete entry whose owner and group identifiers are zero. -/
def wEntryZero : Entry := ⟨"z.txt", false, ⟨0, 0, 0o644, 0, 0, ""⟩, [], [], [], 0⟩

/-- The concrete old file node at /d/a.txt. -/
def wOldNode : FileNode := ⟨"/d", "a.txt"⟩

/-- Sixteen concrete random bytes. -/
def wRandom : List Nat :=
  [10, 11, 12, 13, 14, 15, 16, 17, 18, 19, 20, 21, 22, 23, 24, 25]

/-- A Link execution in which both remote calls succeed. -/
def wLinkSuccess : LinkInput :=
  ⟨false, 7, wMapper, "/d", "b.txt", some wOldNode, .ok (some wEntry),
   wRandom, true, true, []⟩

/-- A Link execution in which the remote update succeeds and the remote
create fails. -/
def wLinkPartial : LinkInput :=
  ⟨false, 7, wMapper, "/d", "b.txt", some wOldNode, .ok (some wEntry),
   wRandom, true, false, []⟩

/-- A Link execution attempted in read-only mode. -/
def wLinkReadOnly : LinkInput :=
  ⟨true, 7, wMapper, "/d", "b.txt", some wOldNode, .ok (some wEntry),
   wRandom, true, true, []⟩

/-- A Link execution whose old node is not a File. -/
def wLinkNotFile : LinkInput :=
  ⟨false, 7, wMapper, "/d", "b.txt", none, .ok (some wEntry),
   wRandom, true, true, []⟩

/-- A Symlink execution in which the remote create succeeds. -/
def wSymlinkOk : SymlinkInput :=
  ⟨false, 0o022, 7, wMapper, "/d", "link1", "/target/path", 1000, 1000,
   1700000000, 1700000000, true, []⟩

/-- A Symlink execution in which the remote create fails. -/
def wSymlinkFail : SymlinkInput :=
  ⟨false, 0o022, 7, wMapper, "/d", "link1", "/target/path", 1000, 1000,
   1700000000, 1700000000, false, []⟩

/-- A Symlink execution attempted in read-only mode. -/
def wSymlinkReadOnly : SymlinkInput :=
  ⟨true, 0o022, 7, wMapper, "/d", "link1", "/target/path", 1000, 1000,
   1700000000, 1700000000, true, []⟩

/-- Concrete attributes of a symlink entry, as Symlink builds them. -/
def wSymAttr : FuseAttributes :=
  ⟨1700000000, 1700000000, goAndNot32 (0o777 ||| modeSymlink) 0o022,
   1000, 1000, "/target/path"⟩

/-- A concrete symlink entry. -/
def wSymEntry : Entry := ⟨"link1", false, wSymAttr, [], [], [], 0⟩

/-- A concrete hardlink-group entry loaded from the filer whose counter
holds the largest int32 value. -/
def wEntryMax : Entry := ⟨"a.txt", false, wAttr, [7, 8], [], [3, 1], 2147483647⟩

/-- A Link execution loading the maximal-counter entry, in which the
remote update succeeds and the remote create fails. -/
def wLinkMax : LinkInput :=
  ⟨false, 7, wMapper, "/d", "b.txt", some wOldNode, .ok (some wEntryMax),
   wRandom, true, false, []⟩

theorem cacheLookup_cacheSet_self (c : Cache) (p : String) (e : Entry) :
    cacheLookup (cacheSet c p e) p = some e := by
  induction c with
  | nil => simp [cacheSet, cacheLookup]
  | cons hd tl ih =>
    obtain ⟨q, f⟩ := hd
    by_cases h : q = p <;> simp [cacheSet, cacheLookup, h, ih]

theorem cacheLookup_cacheSet_ne (c : Cache) (p q : String) (e : Entry)
    (h : q ≠ p) : cacheLookup (cacheSet c p e) q = cacheLookup c q := by
  induction c with
  | nil => simp [cacheSet, cacheLookup, Ne.symm h]
  | cons hd tl ih =>
    obtain ⟨r, f⟩ := hd
    by_cases hr : r = p
    · subst hr
      simp [cacheSet, cacheLookup, h, Ne.symm h]
    · simp [cacheSet, cacheLookup, hr, ih]

theorem wrapInt32_eq_self (x : Int) (h1 : -2147483648 ≤ x)
    (h2 : x < 2147483648) : wrapInt32 x = x := by
  unfold wrapInt32
  omega

theorem wrapInt32_wrapInt32_add (x y : Int) :
    wrapInt32 (wrapInt32 x + y) = wrapInt32 (x + y) := by
  unfold wrapInt32
  omega

theorem stampHardLink_of_empty (rb : List Nat) (e : Entry)
    (h : e.HardLinkId = []) :
    (stampHardLink rb e).HardLinkId = rb ++ [hardLinkMarker] ∧
    (stampHardLink rb e).HardLinkCounter = 2 := by
  refine ⟨by simp [stampHardLink, h], ?_⟩
  simp [stampHardLink, h]
  decide

theorem stampHardLink_of_nonempty (rb : List Nat) (e : Entry)
    (h : e.HardLinkId ≠ []) :
    (stampHardLink rb e).HardLinkId = e.HardLinkId ∧
    (stampHardLink rb e).HardLinkCounter = wrapInt32 (e.HardLinkCounter + 1) := by
  simp [stampHardLink, List.length_eq_zero, h]

theorem linkStamped_counter_of_nonempty (rb : List Nat) (e : Entry)
    (h : e.HardLinkId ≠ [])
    (hlo : -2147483648 ≤ e.HardLinkCounter) (hhi : e.HardLinkCounter < 2147483648)
    (n : Nat) :
    (linkStamped rb n e).HardLinkCounter = wrapInt32 (e.HardLinkCounter + n) ∧
    (linkStamped rb n e).HardLinkId = e.HardLinkId := by
  induction n with
  | zero =>
    simpa [linkStamped] using (wrapInt32_eq_self e.HardLinkCounter hlo hhi).symm
  | succ k ih =>
    have hne : (linkStamped rb k e).HardLinkId ≠ [] := by
      rw [ih.2]; exact h
    have hs := stampHardLink_of_nonempty rb (linkStamped rb k e) hne
    refine ⟨?_, ?_⟩
    · simp only [linkStamped]
      rw [hs.2, ih.1, wrapInt32_wrapInt32_add]
      push_cast
      ring_nf
    · simp only [linkStamped]
      rw [hs.1, ih.2]

theorem linkStamped_counter_wrap (rb : List Nat) (e : Entry)
    (h : e.HardLinkId = []) (n : Nat) (hn : 1 ≤ n) :
    (linkStamped rb n e).HardLinkCounter = wrapInt32 (1 + n) := by
  obtain ⟨k, rfl⟩ : ∃ k, n = k + 1 := ⟨n - 1, by omega⟩
  have h1 := stampHardLink_of_empty rb e h
  have hne : (stampHardLink rb e).HardLinkId ≠ [] := by
    rw [h1.1]; simp
  have hiter : ∀ m : Nat, linkStamped rb (m + 1) e =
      linkStamped rb m (stampHardLink rb e) := by
    intro m
    induction m with
    | zero => simp [linkStamped]
    | succ j ihj => rw [linkStamped, ihj, linkStamped]
  rw [hiter k]
  have := linkStamped_counter_of_nonempty rb (stampHardLink rb e) hne
    (by rw [h1.2]; omega) (by rw [h1.2]; omega) k
  rw [this.1, h1.2]
  congr 1
  push_cast
  ring

theorem linkStamped_counter (rb : List Nat) (e : Entry)
    (h : e.HardLinkId = []) (n : Nat) (hn : 1 ≤ n) (hb : n ≤ 2147483646) :
    (linkStamped rb n e).HardLinkCounter = 1 + n := by
  rw [linkStamped_counter_wrap rb e h n hn]
  exact wrapInt32_eq_self _ (by omega) (by omega)

theorem stampHardLink_Name (rb : List Nat) (e : Entry) :
    (stampHardLink rb e).Name = e.Name := by
  simp only [stampHardLink]
  split <;> rfl

theorem translateOut_Name (m : Mapper) (e : Entry) :
    (translateOut m e).Name = e.Name := rfl

theorem translateOut_HardLinkId (m : Mapper) (e : Entry) :
    (translateOut m e).HardLinkId = e.HardLinkId := rfl

theorem translateOut_HardLinkCounter (m : Mapper) (e : Entry) :
    (translateOut m e).HardLinkCounter = e.HardLinkCounter := rfl

theorem translateOut_Chunks (m : Mapper) (e : Entry) :
    (translateOut m e).Chunks = e.Chunks := rfl

theorem translateOut_Extended (m : Mapper) (e : Entry) :
    (translateOut m e).Extended = e.Extended := rfl

theorem translateIn_translateOut (m : Mapper)
    (h : ∀ n, m.filerToLocal (m.localToFiler n) = n) (e : Entry) :
    translateIn m (translateOut m e) = e := by
  simp [translateIn, translateOut, h]

theorem wrapInt32_two : wrapInt32 2 = 2 := by decide

/-- Claim C1, as amended for the int32 wrap of the hardlink counter:
after a successful Link on a source entry with an initially empty
HardLinkId, the entry sent in the update request and the newly created
entry carry the same non-empty 17-byte HardLinkId, namely the 16 random
bytes plus the marker byte, both have HardLinkCounter 2, and the new
entry copies Attributes, Chunks and Extended verbatim from the existing
entry; in general, after n successive Link stampings of one identity
group the shared counter equals the int32 wrap of 1 plus n, which equals
1 plus n exactly while that count stays below the int32 bound. -/
theorem c1_link_hardlink_identity (inp : LinkInput) (f : FileNode) (e₀ : Entry)
    (hro : inp.readOnly = false) (hold : inp.old = some f)
    (hload : inp.loadResult = .ok (some e₀))
    (hid : e₀.HardLinkId = []) (hrb : inp.randomBytes.length = 16)
    (hupd : inp.updateOk = true) (hcre : inp.createOk = true) :
    ∃ u c, (linkRun inp).sentUpdate = some u ∧ (linkRun inp).sentCreate = some c ∧
      u.HardLinkId = inp.randomBytes ++ [hardLinkMarker] ∧
      u.HardLinkId = c.HardLinkId ∧ c.HardLinkId ≠ [] ∧ c.HardLinkId.length = 17 ∧
      u.HardLinkCounter = 2 ∧ c.HardLinkCounter = 2 ∧
      c.Attributes = u.Attributes ∧ c.Chunks = u.Chunks ∧ c.Extended = u.Extended ∧
      (linkRun inp).ret =
        LinkRet.returned (some (translateIn inp.mapper (translateOut inp.mapper
          (linkRequestEntry inp.newName (stampHardLink inp.randomBytes e₀))))) none ∧
      (∀ (e : Entry) (n : Nat), e.HardLinkId = [] → 1 ≤ n →
        (linkStamped inp.randomBytes n e).HardLinkCounter = wrapInt32 (1 + n)) ∧
      (∀ (e : Entry) (n : Nat), e.HardLinkId = [] → 1 ≤ n → n ≤ 2147483646 →
        (linkStamped inp.randomBytes n e).HardLinkCounter = 1 + n) := by
  refine ⟨translateOut inp.mapper (stampHardLink inp.randomBytes e₀),
    translateOut inp.mapper (linkRequestEntry inp.newName (stampHardLink inp.randomBytes e₀)),
    ?_, ?_, ?_, ?_, ?_, ?_, ?_, ?_, ?_, ?_, ?_, ?_,
    fun e n he hn => linkStamped_counter_wrap inp.randomBytes e he n hn,
    fun e n he hn hb => linkStamped_counter inp.randomBytes e he n hn hb⟩ <;>
    simp [linkRun, hro, hold, hload, hupd, hcre, translateOut, translateIn,
      linkRequestEntry, stampHardLink, hid, hrb, wrapInt32_two]

/-- Claim C1 witness: the concrete all-success Link execution from
/d/a.txt to /d/b.txt on an entry with an empty HardLinkId. -/
theorem c1_link_hardlink_identity_witness :
    ∃ u c, (linkRun wLinkSuccess).sentUpdate = some u ∧
      (linkRun wLinkSuccess).sentCreate = some c ∧
      u.HardLinkId = wLinkSuccess.randomBytes ++ [hardLinkMarker] ∧
      u.HardLinkId = c.HardLinkId ∧ c.HardLinkId ≠ [] ∧ c.HardLinkId.length = 17 ∧
      u.HardLinkCounter = 2 ∧ c.HardLinkCounter = 2 ∧
      c.Attributes = u.Attributes ∧ c.Chunks = u.Chunks ∧ c.Extended = u.Extended ∧
      (linkRun wLinkSuccess).ret =
        LinkRet.returned (some (translateIn wLinkSuccess.mapper (translateOut wLinkSuccess.mapper
          (linkRequestEntry wLinkSuccess.newName (stampHardLink wLinkSuccess.randomBytes wEntry))))) none ∧
      (∀ (e : Entry) (n : Nat), e.HardLinkId = [] → 1 ≤ n →
        (linkStamped wLinkSuccess.randomBytes n e).HardLinkCounter = wrapInt32 (1 + n)) ∧
      (∀ (e : Entry) (n : Nat), e.HardLinkId = [] → 1 ≤ n → n ≤ 2147483646 →
        (linkStamped wLinkSuccess.randomBytes n e).HardLinkCounter = 1 + n) :=
  c1_link_hardlink_identity wLinkSuccess wOldNode wEntry rfl rfl rfl rfl rfl rfl rfl

/-- Claim C1 counterexample: iterating the Link stamping 2147483647
times from a concrete entry with an empty HardLinkId leaves the int32
counter at the wrapped value, not at 1 plus the number of prior Link
calls, which would be 2147483648 and does not fit in an int32. -/
theorem c1_link_hardlink_identity_counterexample :
    (linkStamped wRandom 2147483647 wEntry).HardLinkCounter = -2147483648 ∧
    (linkStamped wRandom 2147483647 wEntry).HardLinkCounter ≠
      1 + ((2147483647 : Nat) : Int) := by
  have h := linkStamped_counter_wrap wRandom wEntry rfl 2147483647 (by omega)
  rw [h]
  norm_num
  decide

/-- Claim C2: in every Link and every Symlink execution, each local cache
write in the event trace is preceded by the corresponding successful
remote call on the same entry and path; after a failed remote call the
corresponding cache write never appears. -/
theorem c2_cache_write_after_remote_success :
    (∀ inp : LinkInput, cacheAfterRemote (linkRun inp).events = true) ∧
    (∀ inp : SymlinkInput, cacheAfterRemote (symlinkRun inp).events = true) := by
  constructor
  · intro inp
    unfold linkRun
    cases hro : inp.readOnly
    · cases hold : inp.old with
      | none => simp [cacheAfterRemote, cacheAfterRemoteAux]
      | some f =>
        cases hload : inp.loadResult with
        | error e => simp [cacheAfterRemote, cacheAfterRemoteAux]
        | ok oe =>
          cases oe with
          | none => simp [cacheAfterRemote, cacheAfterRemoteAux]
          | some e₀ =>
            cases hupd : inp.updateOk
            · simp [cacheAfterRemote, cacheAfterRemoteAux]
            · cases hcre : inp.createOk <;>
                simp [cacheAfterRemote, cacheAfterRemoteAux, remoteSuccessFor, List.any]
    · simp [cacheAfterRemote, cacheAfterRemoteAux]
  · intro inp
    unfold symlinkRun
    cases hro : inp.readOnly
    · cases hc : inp.createOk <;>
        simp [cacheAfterRemote, cacheAfterRemoteAux, remoteSuccessFor, List.any]
    · simp [cacheAfterRemote, cacheAfterRemoteAux]

/-- Claim C3, as amended for the int32 wrap of the hardlink counter:
when the remote update of the existing entry succeeds and the remote
create of the new name fails, Link returns EIO, the cache already holds
the existing entry with the new non-empty HardLinkId and the counter
incremented with int32 wrap (equal to the plain increment whenever that
increment fits in an int32), the trace contains no cache insert, and a
new name absent from the cache before the call is still absent after it;
the committed update is not rolled back. -/
theorem c3_link_partial_failure (inp : LinkInput) (f : FileNode) (e₀ : Entry)
    (hro : inp.readOnly = false) (hold : inp.old = some f)
    (hload : inp.loadResult = .ok (some e₀))
    (hupd : inp.updateOk = true) (hcre : inp.createOk = false) :
    (linkRun inp).ret = LinkRet.returned none (some FuseError.eio) ∧
    cacheLookup (linkRun inp).cache (fullPath f.dirPath e₀.Name) =
      some (translateOut inp.mapper (stampHardLink inp.randomBytes e₀)) ∧
    (translateOut inp.mapper (stampHardLink inp.randomBytes e₀)).HardLinkId ≠ [] ∧
    (translateOut inp.mapper (stampHardLink inp.randomBytes e₀)).HardLinkCounter =
      (if e₀.HardLinkId = [] then 2 else wrapInt32 (e₀.HardLinkCounter + 1)) ∧
    (e₀.HardLinkId ≠ [] → -2147483648 ≤ e₀.HardLinkCounter + 1 →
      e₀.HardLinkCounter + 1 < 2147483648 →
      (translateOut inp.mapper (stampHardLink inp.randomBytes e₀)).HardLinkCounter =
        e₀.HardLinkCounter + 1) ∧
    (∀ p e', Event.cacheInsert p e' ∉ (linkRun inp).events) ∧
    (fullPath f.dirPath e₀.Name ≠ fullPath inp.dirPath inp.newName →
      cacheLookup inp.cache0 (fullPath inp.dirPath inp.newName) = none →
      cacheLookup (linkRun inp).cache (fullPath inp.dirPath inp.newName) = none) := by
  have hrun : linkRun inp = ⟨.returned none (some .eio),
      [.remoteUpdate f.dirPath (translateOut inp.mapper (stampHardLink inp.randomBytes e₀))
          [inp.signature] true,
       .cacheUpdate (fullPath f.dirPath (translateOut inp.mapper (stampHardLink inp.randomBytes e₀)).Name)
          (translateOut inp.mapper (stampHardLink inp.randomBytes e₀)),
       .remoteCreate inp.dirPath
          (translateOut inp.mapper (linkRequestEntry inp.newName (stampHardLink inp.randomBytes e₀)))
          [inp.signature] false],
      cacheSet inp.cache0 (fullPath f.dirPath (translateOut inp.mapper (stampHardLink inp.randomBytes e₀)).Name)
        (translateOut inp.mapper (stampHardLink inp.randomBytes e₀)),
      some (translateOut inp.mapper (stampHardLink inp.randomBytes e₀)),
      some (translateOut inp.mapper (linkRequestEntry inp.newName (stampHardLink inp.randomBytes e₀))),
      some (translateIn inp.mapper (translateOut inp.mapper
        (linkRequestEntry inp.newName (stampHardLink inp.randomBytes e₀))))⟩ := by
    simp [linkRun, hro, hold, hload, hupd, hcre]
  refine ⟨by rw [hrun], ?_, ?_, ?_, ?_, ?_, ?_⟩
  · rw [hrun]
    simp only [translateOut_Name, stampHardLink_Name]
    exact cacheLookup_cacheSet_self _ _ _
  · by_cases hid : e₀.HardLinkId = [] <;>
      simp [translateOut, stampHardLink, hid]
  · by_cases hid : e₀.HardLinkId = [] <;>
      simp [translateOut, stampHardLink, hid, List.length_eq_zero, wrapInt32_two]
  · intro h1 h2 h3
    rw [translateOut_HardLinkCounter,
      (stampHardLink_of_nonempty inp.randomBytes e₀ h1).2]
    exact wrapInt32_eq_self _ h2 h3
  · rw [hrun]
    intro p e'
    simp
  · intro hne hnone
    rw [hrun]
    simp only [translateOut_Name, stampHardLink_Name]
    rw [cacheLookup_cacheSet_ne _ _ _ _ (Ne.symm hne)]
    exact hnone

/-- Claim C3 witness: the concrete Link execution in which the remote
update succeeds and the remote create fails. -/
theorem c3_link_partial_failure_witness :
    (linkRun wLinkPartial).ret = LinkRet.returned none (some FuseError.eio) ∧
    cacheLookup (linkRun wLinkPartial).cache (fullPath wOldNode.dirPath wEntry.Name) =
      some (translateOut wLinkPartial.mapper (stampHardLink wLinkPartial.randomBytes wEntry)) ∧
    (translateOut wLinkPartial.mapper (stampHardLink wLinkPartial.randomBytes wEntry)).HardLinkId ≠ [] ∧
    (translateOut wLinkPartial.mapper (stampHardLink wLinkPartial.randomBytes wEntry)).HardLinkCounter =
      (if wEntry.HardLinkId = [] then 2 else wrapInt32 (wEntry.HardLinkCounter + 1)) ∧
    (wEntry.HardLinkId ≠ [] → -2147483648 ≤ wEntry.HardLinkCounter + 1 →
      wEntry.HardLinkCounter + 1 < 2147483648 →
      (translateOut wLinkPartial.mapper (stampHardLink wLinkPartial.randomBytes wEntry)).HardLinkCounter =
        wEntry.HardLinkCounter + 1) ∧
    (∀ p e', Event.cacheInsert p e' ∉ (linkRun wLinkPartial).events) ∧
    (fullPath wOldNode.dirPath wEntry.Name ≠ fullPath wLinkPartial.dirPath wLinkPartial.newName →
      cacheLookup wLinkPartial.cache0 (fullPath wLinkPartial.dirPath wLinkPartial.newName) = none →
      cacheLookup (linkRun wLinkPartial).cache (fullPath wLinkPartial.dirPath wLinkPartial.newName) = none) :=
  c3_link_partial_failure wLinkPartial wOldNode wEntry rfl rfl rfl rfl rfl

/-- Claim C3 counterexample: on the concrete partial-failure Link whose
loaded entry carries the largest int32 counter 2147483647, the cached
existing entry holds the wrapped counter, not the plain increment, which
would be 2147483648 and does not fit in an int32. -/
theorem c3_link_partial_failure_counterexample :
    cacheLookup (linkRun wLinkMax).cache (fullPath wOldNode.dirPath wEntryMax.Name) =
      some (translateOut wLinkMax.mapper (stampHardLink wLinkMax.randomBytes wEntryMax)) ∧
    (translateOut wLinkMax.mapper (stampHardLink wLinkMax.randomBytes wEntryMax)).HardLinkCounter =
      -2147483648 ∧
    (translateOut wLinkMax.mapper (stampHardLink wLinkMax.randomBytes wEntryMax)).HardLinkCounter ≠
      wEntryMax.HardLinkCounter + 1 := by
  refine ⟨?_, by decide, by decide⟩
  decide

/-- Claim C4: in read-only mode, Link and Symlink return a permission
error immediately, with an empty event trace (zero remote calls and zero
cache writes) and an unchanged cache. -/
theorem c4_read_only_rejection :
    (∀ inp : LinkInput, inp.readOnly = true →
      linkRun inp = ⟨.returned none (some .eperm), [], inp.cache0, none, none, none⟩) ∧
    (∀ inp : SymlinkInput, inp.readOnly = true →
      symlinkRun inp = ⟨none, some .eperm, [], inp.cache0, none⟩) := by
  constructor
  · intro inp h
    simp [linkRun, h]
  · intro inp h
    simp [symlinkRun, h]

/-- Claim C4 witness: the concrete read-only Link and Symlink executions. -/
theorem c4_read_only_rejection_witness :
    linkRun wLinkReadOnly =
      ⟨.returned none (some .eperm), [], wLinkReadOnly.cache0, none, none, none⟩ ∧
    symlinkRun wSymlinkReadOnly =
      ⟨none, some .eperm, [], wSymlinkReadOnly.cache0, none⟩ :=
  ⟨c4_read_only_rejection.1 wLinkReadOnly rfl,
   c4_read_only_rejection.2 wSymlinkReadOnly rfl⟩

/-- Claim C5: on a loaded entry, Readlink returns the SymlinkTarget
string verbatim when the symlink mode bit is set, and the empty string
with an invalid-argument error when it is not set. -/
theorem c5_readlink_contract : ∀ (c : Cache) (e : Entry),
    (e.Attributes.FileMode &&& modeSymlink ≠ 0 →
      (readlinkRun c e).target = e.Attributes.SymlinkTarget ∧
      (readlinkRun c e).err = none) ∧
    (e.Attributes.FileMode &&& modeSymlink = 0 →
      (readlinkRun c e).target = "" ∧
      (readlinkRun c e).err = some FuseError.einval) := by
  intro c e
  constructor
  · intro h
    simp [readlinkRun, h]
  · intro h
    simp [readlinkRun, h]

/-- Claim C5 witness: Readlink on a concrete symlink entry returns its
target, and Readlink on a concrete plain file entry returns the empty
string with an invalid-argument error. -/
theorem c5_readlink_contract_witness :
    ((readlinkRun [] wSymEntry).target = wSymEntry.Attributes.SymlinkTarget ∧
      (readlinkRun [] wSymEntry).err = none) ∧
    ((readlinkRun [] wEntry).target = "" ∧
      (readlinkRun [] wEntry).err = some FuseError.einval) :=
  ⟨(c5_readlink_contract [] wSymEntry).1 (by decide),
   (c5_readlink_contract [] wEntry).2 (by decide)⟩

/-- Claim C6: past the read-only check, the entry of the create request
that Symlink hands to the remote store is a non-directory entry whose
file mode is the bitwise and of 0777 joined with the symlink bit and the
complement of the umask, whose SymlinkTarget is the requested target,
whose owner and group ids are the requested ones, whose timestamps are
the clock readings, and whose HardLinkId is empty; the first trace event
is the remote create of that entry after outward translation. -/
theorem c6_symlink_request_entry : ∀ inp : SymlinkInput, inp.readOnly = false →
    (symlinkRun inp).events.head? = some (.remoteCreate inp.dirPath
      (translateOut inp.mapper (symlinkRequestEntry inp)) [inp.signature] inp.createOk) ∧
    (symlinkRequestEntry inp).IsDirectory = false ∧
    (symlinkRequestEntry inp).Attributes.FileMode =
      goAndNot32 (0o777 ||| modeSymlink) inp.umask ∧
    (symlinkRequestEntry inp).Attributes.SymlinkTarget = inp.target ∧
    (symlinkRequestEntry inp).Attributes.Uid = inp.uid ∧
    (symlinkRequestEntry inp).Attributes.Gid = inp.gid ∧
    (symlinkRequestEntry inp).Attributes.Mtime = inp.mtimeNow ∧
    (symlinkRequestEntry inp).Attributes.Crtime = inp.crtimeNow ∧
    (symlinkRequestEntry inp).HardLinkId = [] := by
  intro inp h
  cases hc : inp.createOk <;>
    simp [symlinkRun, symlinkRequestEntry, h, hc]

/-- Claim C6 witness: the concrete successful Symlink execution. -/
theorem c6_symlink_request_entry_witness :
    (symlinkRun wSymlinkOk).events.head? = some (.remoteCreate wSymlinkOk.dirPath
      (translateOut wSymlinkOk.mapper (symlinkRequestEntry wSymlinkOk))
      [wSymlinkOk.signature] wSymlinkOk.createOk) ∧
    (symlinkRequestEntry wSymlinkOk).IsDirectory = false ∧
    (symlinkRequestEntry wSymlinkOk).Attributes.FileMode =
      goAndNot32 (0o777 ||| modeSymlink) wSymlinkOk.umask ∧
    (symlinkRequestEntry wSymlinkOk).Attributes.SymlinkTarget = wSymlinkOk.target ∧
    (symlinkRequestEntry wSymlinkOk).Attributes.Uid = wSymlinkOk.uid ∧
    (symlinkRequestEntry wSymlinkOk).Attributes.Gid = wSymlinkOk.gid ∧
    (symlinkRequestEntry wSymlinkOk).Attributes.Mtime = wSymlinkOk.mtimeNow ∧
    (symlinkRequestEntry wSymlinkOk).Attributes.Crtime = wSymlinkOk.crtimeNow ∧
    (symlinkRequestEntry wSymlinkOk).HardLinkId = [] :=
  c6_symlink_request_entry wSymlinkOk rfl

/-- Claim C7: Readlink on a loaded entry performs no remote call and no
cache write: its event trace is empty and the cache is unchanged. -/
theorem c7_readlink_frame : ∀ (c : Cache) (e : Entry),
    (readlinkRun c e).events = [] ∧ (readlinkRun c e).cache = c := by
  intro c e
  by_cases h : e.Attributes.FileMode &&& modeSymlink = 0 <;>
    simp [readlinkRun, h]

/-- Claim C8: past the read-only check, Symlink returns a node wrapping
exactly the request entry as left by the deferred inward translation, and
it does so also when the remote create fails, alongside the EIO error. -/
theorem c8_symlink_returns_node_on_error : ∀ inp : SymlinkInput, inp.readOnly = false →
    (symlinkRun inp).node = (symlinkRun inp).reqEntryFinal ∧
    (symlinkRun inp).node = some (translateIn inp.mapper
      (translateOut inp.mapper (symlinkRequestEntry inp))) ∧
    (inp.createOk = false →
      (symlinkRun inp).err = some FuseError.eio ∧ (symlinkRun inp).node ≠ none) := by
  intro inp h
  cases hc : inp.createOk <;>
    simp [symlinkRun, h, hc]

/-- Claim C8 witness: the concrete Symlink execution whose remote create
fails still returns a constructed node alongside the error. -/
theorem c8_symlink_returns_node_on_error_witness :
    (symlinkRun wSymlinkFail).node = (symlinkRun wSymlinkFail).reqEntryFinal ∧
    (symlinkRun wSymlinkFail).node = some (translateIn wSymlinkFail.mapper
      (translateOut wSymlinkFail.mapper (symlinkRequestEntry wSymlinkFail))) ∧
    (wSymlinkFail.createOk = false →
      (symlinkRun wSymlinkFail).err = some FuseError.eio ∧
      (symlinkRun wSymlinkFail).node ≠ none) :=
  c8_symlink_returns_node_on_error wSymlinkFail rfl

/-- Claim C9: when the inward identifier map inverts the outward one,
translating an entry outward and then inward restores it exactly, for
arbitrary identifier values including zero; and in Link and Symlink the
deferred inward translation leaves the request entry equal to its
pre-translation state on every exit path of the remote-client callback,
whatever the outcomes of the remote calls. -/
theorem c9_identifier_roundtrip :
    (∀ (m : Mapper), (∀ n, m.filerToLocal (m.localToFiler n) = n) →
      ∀ e : Entry, translateIn m (translateOut m e) = e) ∧
    (∀ (inp : LinkInput) (f : FileNode) (e₀ : Entry),
      (∀ n, inp.mapper.filerToLocal (inp.mapper.localToFiler n) = n) →
      inp.readOnly = false → inp.old = some f → inp.loadResult = .ok (some e₀) →
      (linkRun inp).reqEntryFinal =
        some (linkRequestEntry inp.newName (stampHardLink inp.randomBytes e₀))) ∧
    (∀ (inp : SymlinkInput),
      (∀ n, inp.mapper.filerToLocal (inp.mapper.localToFiler n) = n) →
      inp.readOnly = false →
      (symlinkRun inp).reqEntryFinal = some (symlinkRequestEntry inp)) := by
  refine ⟨fun m hm e => translateIn_translateOut m hm e, ?_, ?_⟩
  · intro inp f e₀ hm hro hold hload
    cases hupd : inp.updateOk <;> cases hcre : inp.createOk <;>
      simp [linkRun, hro, hold, hload, hupd, hcre, translateIn_translateOut inp.mapper hm]
  · intro inp hm hro
    cases hc : inp.createOk <;>
      simp [symlinkRun, hro, hc, translateIn_translateOut inp.mapper hm]

/-- Claim C9 witness: the concrete mapper shifting identifiers by 1000,
applied to an entry whose identifiers are zero, and the concrete Link and
Symlink executions. -/
theorem c9_identifier_roundtrip_witness :
    translateIn wMapper (translateOut wMapper wEntryZero) = wEntryZero ∧
    (linkRun wLinkSuccess).reqEntryFinal =
      some (linkRequestEntry wLinkSuccess.newName
        (stampHardLink wLinkSuccess.randomBytes wEntry)) ∧
    (symlinkRun wSymlinkOk).reqEntryFinal = some (symlinkRequestEntry wSymlinkOk) :=
  ⟨c9_identifier_roundtrip.1 wMapper (fun n => Nat.add_sub_cancel n 1000) wEntryZero,
   c9_identifier_roundtrip.2.1 wLinkSuccess wOldNode wEntry
     (fun n => Nat.add_sub_cancel n 1000) rfl rfl rfl,
   c9_identifier_roundtrip.2.2 wSymlinkOk (fun n => Nat.add_sub_cancel n 1000) rfl⟩

/-- Claim C10: when Link is called outside read-only mode with an old
node that is not a File, the failed type assertion is only logged and the
nil file pointer is then dereferenced, so Link crashes instead of
returning; no node/error pair is ever returned on this path. -/
theorem c10_link_non_file_panics : ∀ inp : LinkInput,
    inp.readOnly = false → inp.old = none →
    (linkRun inp).ret = LinkRet.panicked ∧
    ∀ node err, (linkRun inp).ret ≠ LinkRet.returned node err := by
  intro inp hro hold
  simp [linkRun, hro, hold]

/-- Claim C10 witness: the concrete Link execution whose old node is not
a File crashes. -/
theorem c10_link_non_file_panics_witness :
    (linkRun wLinkNotFile).ret = LinkRet.panicked ∧
    ∀ node err, (linkRun wLinkNotFile).ret ≠ LinkRet.returned node err :=
  c10_link_non_file_panics wLinkNotFile rfl rfl
